import Mathlib

/-!
Verification development for the single-page React portfolio
(`frontend/app/page.tsx`). The page's behavioral core is embedded
shallowly: the dark-mode state machine, the derived theme palette and
inline-style object, the section-scroll helper, the static content
catalog, and the rendered page tree. Every definition is translated
directly from the source file.
-/

namespace Portfolio

/-! ## Theme state machine (page.tsx lines 51-60, 441-447)

`const [darkMode, setDarkMode] = useState(true)` initializes the mode
flag to `true`. A `useEffect` keyed on `prefersDarkMode` runs
`setDarkMode(prefersDarkMode)` after the first render and again on every
change of the media-query signal. The toggle button runs
`setDarkMode(!darkMode)`. -/

/-- Initial value of the `darkMode` state: `useState(true)` (line 55). -/
def initialDarkMode : Bool := true

/-- Events that mutate the `darkMode` flag: the `useEffect` firing with
the current `prefers-color-scheme: dark` match (lines 58-60), and the
theme-toggle button click (line 442). -/
inductive ThemeEvent where
  | envChange (prefersDark : Bool)
  | toggle
deriving DecidableEq

/-- One transition of the mode flag. `envChange b` runs
`setDarkMode(prefersDarkMode)`; `toggle` runs `setDarkMode(!darkMode)`. -/
def themeStep (m : Bool) : ThemeEvent → Bool
  | .envChange b => b
  | .toggle => !m

/-- Run a sequence of theme events from a starting mode. -/
def runEvents (m : Bool) (es : List ThemeEvent) : Bool :=
  es.foldl themeStep m

/-- The toggle operation by itself: `setDarkMode(!darkMode)` (line 442). -/
def toggleMode (m : Bool) : Bool := !m

/-- Mode visible on the very first render, before any effect has run:
the `useState(true)` initial value. The media-query signal is not
consulted until the effect fires, so the argument is unused. -/
def firstRenderMode (_prefersDark : Bool) : Bool := initialDarkMode

/-- Mode after the mount effect has run once with the environment
signal `prefersDark`. -/
def afterMountMode (prefersDark : Bool) : Bool :=
  themeStep initialDarkMode (.envChange prefersDark)

/-! ## Theme palette (page.tsx lines 63-77, `createTheme`) -/

/-- The palette section of `createTheme` (lines 65-77). Colors are the
hex/string literals of the source. -/
structure Palette where
  mode : String
  primaryMain : String
  secondaryMain : String
  backgroundDefault : String
  backgroundPaper : String
deriving DecidableEq

/-- `createTheme({ palette: ... })` as a function of the `darkMode`
flag (lines 63-77). -/
def themePalette (darkMode : Bool) : Palette :=
  { mode := if darkMode then "dark" else "light"
    primaryMain := "#3a86ff"
    secondaryMain := "#ff006e"
    backgroundDefault := if darkMode then "#0a1929" else "#f8fafc"
    backgroundPaper := if darkMode then "#132f4c" else "#ffffff" }

/-! ## Section scrolling (page.tsx lines 309-317, `scrollToSection`) -/

/-- A live document, mapping element ids to `offsetTop` when an element
with that id exists (`document.getElementById`). -/
def Document : Type := String → Option Int

/-- The argument object of `window.scrollTo` (lines 312-315). -/
structure ScrollRequest where
  behavior : String
  top : Int
deriving DecidableEq

/-- `scrollToSection` (lines 309-317): look the id up; if an element
exists, request a smooth scroll to `element.offsetTop - 64`; otherwise
do nothing. The issued request (if any) is returned. -/
def scrollToSection (doc : Document) (elementId : String) : Option ScrollRequest :=
  match doc elementId with
  | some offsetTop => some { behavior := "smooth", top := offsetTop - 64 }
  | none => none

/-- Browser scroll state observable by the page. -/
structure BrowserState where
  scrollTop : Int
deriving DecidableEq

/-- Effect of an optional scroll request on the browser scroll state:
`window.scrollTo` moves to the requested top; no request leaves the
position unchanged. -/
def applyScroll (st : BrowserState) : Option ScrollRequest → BrowserState
  | some req => { scrollTop := req.top }
  | none => st

/-! ## Inline style object (page.tsx lines 127-258, `const styles = ...`)

Each entry is modelled as an ordered list of CSS property/value pairs,
with the source's literal values. Mode-dependent values follow the
source's `darkMode ? ... : ...` conditionals. -/

/-- An ordered list of CSS property/value pairs. -/
abbrev StyleProps : Type := List (String × String)

/-- `styles.gradientBg` (lines 129-134). -/
def gradientBg (darkMode : Bool) : StyleProps :=
  [("background", if darkMode
      then "linear-gradient(to bottom right, #0a1929, #132f4c)"
      else "linear-gradient(to bottom right, #f8fafc, #e2e8f0)"),
   ("minHeight", "100vh")]

/-- `styles.navBar` (lines 136-141). -/
def navBar (darkMode : Bool) : StyleProps :=
  [("backdropFilter", "blur(12px)"),
   ("backgroundColor", if darkMode then "rgba(19, 47, 76, 0.8)" else "rgba(255, 255, 255, 0.8)"),
   ("boxShadow", if darkMode then "0 4px 30px rgba(0, 0, 0, 0.1)" else "0 4px 30px rgba(0, 0, 0, 0.05)"),
   ("borderRadius", "0px")]

/-- `styles.heroSection` (lines 143-148). -/
def heroSection (darkMode : Bool) : StyleProps :=
  [("position", "relative"),
   ("overflow", "hidden"),
   ("padding", "6rem 0 10rem 0"),
   ("backgroundColor", if darkMode then "#132f4c" else "#ffffff")]

/-- `styles.heroGradient` (lines 150-155); mode-independent. -/
def heroGradient : StyleProps :=
  [("position", "absolute"), ("inset", "0"), ("zIndex", "0"), ("opacity", "0.1")]

/-- `styles.innerGradient` (lines 157-162); mode-independent. -/
def innerGradient : StyleProps :=
  [("position", "absolute"),
   ("inset", "0"),
   ("background", "linear-gradient(to right, #3a86ff, #ff006e)"),
   ("transform", "rotate(12deg) translateX(50%) translateY(33%)")]

/-- `styles.sectionTitle` (lines 164-170); mode-independent. -/
def sectionTitle : StyleProps :=
  [("fontWeight", "bold"), ("marginBottom", "0.5rem"), ("textAlign", "center"),
   ("position", "relative"), ("zIndex", "1")]

/-- `styles.divider` (lines 172-178); mode-independent. -/
def dividerStyle : StyleProps :=
  [("width", "5rem"), ("height", "4px"), ("margin", "0.5rem auto 2rem auto"),
   ("backgroundColor", "#3a86ff"), ("borderRadius", "2px")]

/-- `styles.projectCard` (lines 180-189); mode-independent. -/
def projectCard : StyleProps :=
  [("height", "100%"), ("display", "flex"), ("flexDirection", "column"),
   ("transition", "transform 0.3s ease, box-shadow 0.3s ease"),
   ("&:hover.transform", "translateY(-8px)"),
   ("&:hover.boxShadow", "0 16px 40px rgba(0, 0, 0, 0.12)")]

/-- `styles.skillLabel` (lines 191-195); mode-independent. -/
def skillLabel : StyleProps :=
  [("display", "flex"), ("justifyContent", "space-between"), ("marginBottom", "0.25rem")]

/-- `styles.skillProgress` (lines 197-201). -/
def skillProgress (darkMode : Bool) : StyleProps :=
  [("height", "8"), ("borderRadius", "4"),
   ("backgroundColor", if darkMode then "rgba(255, 255, 255, 0.1)" else "rgba(0, 0, 0, 0.05)")]

/-- `styles.skillProgressBar` (lines 203-206); mode-independent. -/
def skillProgressBar : StyleProps :=
  [("backgroundImage", "linear-gradient(to right, #3a86ff, #5e60ce)"), ("borderRadius", "4")]

/-- `styles.techTag` (lines 208-217). -/
def techTag (darkMode : Bool) : StyleProps :=
  [("padding", "0.5rem 1rem"),
   ("backgroundColor", if darkMode then "rgba(255, 255, 255, 0.05)" else "rgba(0, 0, 0, 0.03)"),
   ("borderRadius", "8px"),
   ("border", if darkMode then "1px solid rgba(255, 255, 255, 0.1)" else "1px solid rgba(0, 0, 0, 0.05)"),
   ("color", if darkMode then "#e2e8f0" else "#334155"),
   ("margin", "0.375rem"),
   ("display", "inline-block"),
   ("fontWeight", "500")]

/-- `styles.contactForm` (lines 219-223); mode-independent. -/
def contactFormStyle : StyleProps :=
  [("& .MuiTextField-root.marginBottom", "1.5rem")]

/-- `styles.socialIcon` (lines 225-234). -/
def socialIcon (darkMode : Bool) : StyleProps :=
  [("color", if darkMode then "#e2e8f0" else "#475569"),
   ("fontSize", "1.5rem"),
   ("marginRight", "1rem"),
   ("transition", "color 0.2s, transform 0.2s"),
   ("&:hover.color", "#3a86ff"),
   ("&:hover.transform", "translateY(-3px)")]

/-- `styles.sectionContainer` (lines 236-239); mode-independent. -/
def sectionContainer : StyleProps :=
  [("position", "relative"), ("zIndex", "1")]

/-- `styles.profileImage` (lines 241-246). -/
def profileImage (darkMode : Bool) : StyleProps :=
  [("border", if darkMode then "4px solid #132f4c" else "4px solid #ffffff"),
   ("boxShadow", if darkMode
      then "0 20px 40px rgba(0, 0, 0, 0.3)"
      else "0 20px 40px rgba(0, 0, 0, 0.15)")]

/-- `styles.sectionShape` (lines 248-257); mode-independent. -/
def sectionShape : StyleProps :=
  [("position", "absolute"), ("bottom", "-100"), ("right", "-100"),
   ("width", "300"), ("height", "300"), ("borderRadius", "50%"),
   ("background", "linear-gradient(135deg, rgba(58, 134, 255, 0.1), rgba(255, 0, 110, 0.1))"),
   ("zIndex", "0")]

/-- The whole `styles` object (lines 127-258), one field per entry key. -/
structure Styles where
  gradientBg : StyleProps
  navBar : StyleProps
  heroSection : StyleProps
  heroGradient : StyleProps
  innerGradient : StyleProps
  sectionTitle : StyleProps
  divider : StyleProps
  projectCard : StyleProps
  skillLabel : StyleProps
  skillProgress : StyleProps
  skillProgressBar : StyleProps
  techTag : StyleProps
  contactForm : StyleProps
  socialIcon : StyleProps
  sectionContainer : StyleProps
  profileImage : StyleProps
  sectionShape : StyleProps
deriving DecidableEq

/-- `const styles = {...}` as a function of the `darkMode` flag. -/
def pageStyles (darkMode : Bool) : Styles :=
  { gradientBg := gradientBg darkMode
    navBar := navBar darkMode
    heroSection := heroSection darkMode
    heroGradient := heroGradient
    innerGradient := innerGradient
    sectionTitle := sectionTitle
    divider := dividerStyle
    projectCard := projectCard
    skillLabel := skillLabel
    skillProgress := skillProgress darkMode
    skillProgressBar := skillProgressBar
    techTag := techTag darkMode
    contactForm := contactFormStyle
    socialIcon := socialIcon darkMode
    sectionContainer := sectionContainer
    profileImage := profileImage darkMode
    sectionShape := sectionShape }

/-! ## Content catalog (page.tsx lines 261-306) -/

/-- One entry of `projectsData` (lines 261-286). -/
structure Project where
  title : String
  description : String
  image : String
  technologies : List String
  github : String
  demo : String
deriving DecidableEq

/-- `const projectsData = [...]` (lines 261-286). -/
def projectsData : List Project :=
  [{ title := "E-commerce Platform"
     description := "A full-stack e-commerce solution with React, Node.js, and Stripe integration that handles 10,000+ monthly transactions."
     image := "/project1.jpg"
     technologies := ["React", "Node.js", "MongoDB"]
     github := "https://github.com/johndoe/ecommerce"
     demo := "https://ecommerce-demo.example.com" },
   { title := "SaaS Analytics Dashboard"
     description := "An analytics dashboard for SaaS businesses with real-time data visualization and custom reporting features."
     image := "/project2.jpg"
     technologies := ["Next.js", "TypeScript", "D3.js"]
     github := "https://github.com/johndoe/saas-dashboard"
     demo := "https://saas-dashboard.example.com" },
   { title := "AI Chat Application"
     description := "A real-time chat application with AI-powered responses and language translation supporting 20+ languages."
     image := "/project3.jpg"
     technologies := ["React", "Socket.io", "OpenAI API"]
     github := "https://github.com/johndoe/ai-chat"
     demo := "https://ai-chat.example.com" }]

/-- One entry of the skill lists: a name and a 0-100 proficiency value
(lines 289-300). -/
structure SkillEntry where
  name : String
  value : Nat
deriving DecidableEq

/-- `const frontendSkills = [...]` (lines 289-293). -/
def frontendSkills : List SkillEntry :=
  [{ name := "React / Next.js", value := 95 },
   { name := "TypeScript", value := 90 },
   { name := "UI/UX Design", value := 85 }]

/-- `const backendSkills = [...]` (lines 296-300). -/
def backendSkills : List SkillEntry :=
  [{ name := "Node.js / Express", value := 85 },
   { name := "Database Design", value := 80 },
   { name := "GraphQL", value := 75 }]

/-- `const otherTechnologies = [...]` (lines 303-306). -/
def otherTechnologies : List String :=
  ["Docker", "AWS", "CI/CD", "Jest", "Git",
   "Redux", "Firebase", "Webpack", "TailwindCSS", "Figma"]

/-- The static content catalog as one value: the three read-only
sequences and the tag list the page renders. -/
structure ContentCatalog where
  projects : List Project
  frontend : List SkillEntry
  backend : List SkillEntry
  tags : List String
deriving DecidableEq

/-- The catalog hard-coded in the component body. -/
def theCatalog : ContentCatalog :=
  { projects := projectsData
    frontend := frontendSkills
    backend := backendSkills
    tags := otherTechnologies }

/-! ## Rendered page tree (page.tsx lines 320-1127) -/

/-- A rendered project card (lines 664-719): title and description
text, technology chips in order, the two action-link targets, and the
mode-dependent `elevation={darkMode ? 1 : 2}` (line 665). -/
structure RenderedProject where
  title : String
  description : String
  techChips : List String
  codeHref : String
  demoHref : String
  elevation : Nat
deriving DecidableEq

/-- Render one project card (lines 665-718). -/
def renderProject (darkMode : Bool) (p : Project) : RenderedProject :=
  { title := p.title
    description := p.description
    techChips := p.technologies
    codeHref := p.github
    demoHref := p.demo
    elevation := if darkMode then 1 else 2 }

/-- Render one skill entry (lines 788-799 and 831-842): the markup
emits only `{skill.name}` inside a Typography; the `value` field is
never read. -/
def renderSkill (s : SkillEntry) : String := s.name

/-- Footer copyright line (line 1117):
`© {new Date().getFullYear()} John Doe. All rights reserved.` -/
def footerCopyrightText (year : Nat) : String :=
  "© " ++ toString year ++ " John Doe. All rights reserved."

/-- Inputs the page can observe from outside its props/state: the
wall-clock year read by `new Date().getFullYear()` (line 1117) and the
current scroll position (never read during render). -/
structure Env where
  clockYear : Nat
  scrollTop : Int
deriving DecidableEq

/-- Summary of the rendered visual tree: the derived theme palette and
style object, the section text in document order, the project cards,
the skill names, the tag chips, the contact-form field labels, and the
footer line. -/
structure RenderedPage where
  palette : Palette
  pageStyles : Styles
  navLabels : List String
  heroHeadline : String
  heroSubtitle : String
  aboutTitle : String
  projectCards : List RenderedProject
  frontendSkillNames : List String
  backendSkillNames : List String
  techTags : List String
  contactFieldIds : List String
  footerCopyright : String
deriving DecidableEq

/-- Render the page (the component's return value, lines 320-1127),
as a function of the mode flag, the catalog and the environment. The
environment is read only at line 1117 (`new Date().getFullYear()`). -/
def renderPage (darkMode : Bool) (catalog : ContentCatalog) (env : Env) : RenderedPage :=
  { palette := themePalette darkMode
    pageStyles := pageStyles darkMode
    navLabels := ["About", "Projects", "Skills", "Contact"]
    heroHeadline := "Hi, I&apos;m Alex Shaw"
    heroSubtitle := "Full Stack Developer"
    aboutTitle := "About Me"
    projectCards := catalog.projects.map (renderProject darkMode)
    frontendSkillNames := catalog.frontend.map renderSkill
    backendSkillNames := catalog.backend.map renderSkill
    techTags := catalog.tags
    contactFieldIds := ["name", "email", "message"]
    footerCopyright := footerCopyrightText env.clockYear }

/-! ## Contact form (page.tsx lines 1028-1090) -/

/-- Application state mutable by event handlers: the mode flag and the
browser scroll position. -/
structure AppState where
  darkMode : Bool
  browser : BrowserState
deriving DecidableEq

/-- The contact form: `<Box component="form">` holding three TextFields
with ids `name`, `email`, `message` and a submit button. The source
attaches no `onSubmit` handler, so the handler slot is `none`. -/
structure ContactForm where
  fieldIds : List String
  onSubmit : Option (AppState → AppState)

/-- The form as written in the source (lines 1028-1090). -/
def theContactForm : ContactForm :=
  { fieldIds := ["name", "email", "message"], onSubmit := none }

/-- Submitting a form runs its handler if one is defined; with no
handler, application state is untouched. -/
def submitForm (f : ContactForm) (st : AppState) : AppState :=
  match f.onSubmit with
  | some h => h st
  | none => st

/-! ## Theorems settling the claims -/

/-- Claim C1: after the mount effect the theme mode equals the
environment prefers-dark signal, and after any later event sequence
(manual toggles included) every environment-signal change
unconditionally overwrites the mode with the new signal value. -/
theorem c1_env_change_overwrites (pref b : Bool) (es : List ThemeEvent) :
    afterMountMode pref = pref ∧
    runEvents initialDarkMode
      (ThemeEvent.envChange pref :: (es ++ [ThemeEvent.envChange b])) = b := by
  refine ⟨rfl, ?_⟩
  simp [runEvents, themeStep]

/-- Claim C2: the toggle is an involution, and applying it twice
returns the theme palette and every entry of the styles object to the
original values. -/
theorem c2_toggle_involution (m : Bool) :
    toggleMode (toggleMode m) = m ∧
    themePalette (toggleMode (toggleMode m)) = themePalette m ∧
    pageStyles (toggleMode (toggleMode m)) = pageStyles m := by
  cases m <;> exact ⟨rfl, rfl, rfl⟩

/-- Claim C3: for an anchor id naming an element present in the
document, scrollToSection requests a smooth scroll whose target
vertical offset is the element top position minus 64. -/
theorem c3_scroll_present (doc : Document) (elementId : String) (top : Int)
    (h : doc elementId = some top) :
    scrollToSection doc elementId =
      some { behavior := "smooth", top := top - 64 } := by
  simp [scrollToSection, h]

/-- A concrete document holding one element, id `about` at offsetTop 500. -/
def demoDocument : Document :=
  fun elementId => if elementId = "about" then some 500 else none

/-- Witness for C3 at a concrete document and anchor. -/
theorem c3_scroll_present_witness :
    demoDocument "about" = some 500 ∧
    scrollToSection demoDocument "about" =
      some { behavior := "smooth", top := (500 : Int) - 64 } :=
  ⟨by decide, c3_scroll_present demoDocument "about" 500 (by decide)⟩

/-- Claim C4: for an anchor id absent from the document,
scrollToSection issues no scroll request and leaves the scroll
position unchanged (a silent no-op, no error raised). -/
theorem c4_scroll_absent_noop (doc : Document) (elementId : String)
    (h : doc elementId = none) (st : BrowserState) :
    scrollToSection doc elementId = none ∧
    applyScroll st (scrollToSection doc elementId) = st := by
  simp [scrollToSection, h, applyScroll]

/-- Witness for C4 at a concrete document and absent anchor. -/
theorem c4_scroll_absent_noop_witness :
    demoDocument "missing" = none ∧
    (scrollToSection demoDocument "missing" = none ∧
     applyScroll { scrollTop := 120 } (scrollToSection demoDocument "missing") =
       { scrollTop := 120 }) :=
  ⟨by decide, c4_scroll_absent_noop demoDocument "missing" (by decide) { scrollTop := 120 }⟩

/-- Claim C5 counterexample: the primary and secondary accent colors
are the same literal in dark and light mode (`#3a86ff` and `#ff006e`,
lines 67-72), refuting that every accent color differs between modes. -/
theorem c5_accent_colors_equal_across_modes :
    (themePalette true).primaryMain = (themePalette false).primaryMain ∧
    (themePalette true).secondaryMain = (themePalette false).secondaryMain :=
  ⟨rfl, rfl⟩

/-- Claim C5 (amended): the background and surface colors (and the
mode string) differ between dark and light, while the primary and
secondary accent colors are identical constants in both modes. -/
theorem c5_palette_mode_dependence :
    (themePalette true).backgroundDefault ≠ (themePalette false).backgroundDefault ∧
    (themePalette true).backgroundPaper ≠ (themePalette false).backgroundPaper ∧
    (themePalette true).mode ≠ (themePalette false).mode ∧
    (themePalette true).primaryMain = (themePalette false).primaryMain ∧
    (themePalette true).secondaryMain = (themePalette false).secondaryMain := by
  refine ⟨?_, ?_, ?_, rfl, rfl⟩ <;> decide

/-- Claim C6 counterexample: two renders with the same theme mode and
the same catalog differ when the wall-clock year differs, because the
footer renders `new Date().getFullYear()` (line 1117); so an input
outside (ThemeMode, ContentCatalog) influences the output. -/
theorem c6_render_depends_on_clock :
    renderPage true theCatalog { clockYear := 2025, scrollTop := 0 } ≠
      renderPage true theCatalog { clockYear := 2026, scrollTop := 0 } := by
  intro h
  have hfoot := congrArg RenderedPage.footerCopyright h
  exact absurd hfoot (by decide)

/-- Claim C6 (amended): rendering is a pure deterministic function of
(ThemeMode, ContentCatalog, clock year): two environments agreeing on
the clock year render identically, so no environment input other than
the footer year influences the output. -/
theorem c6_render_pure_given_year (m : Bool) (catalog : ContentCatalog)
    (e₁ e₂ : Env) (h : e₁.clockYear = e₂.clockYear) :
    renderPage m catalog e₁ = renderPage m catalog e₂ := by
  simp [renderPage, h]

/-- Witness for the amended C6: same mode, catalog and year but
different scroll positions render identically. -/
theorem c6_render_pure_given_year_witness :
    ({ clockYear := 2025, scrollTop := 0 } : Env).clockYear =
      ({ clockYear := 2025, scrollTop := 777 } : Env).clockYear ∧
    renderPage true theCatalog { clockYear := 2025, scrollTop := 0 } =
      renderPage true theCatalog { clockYear := 2025, scrollTop := 777 } :=
  ⟨rfl, c6_render_pure_given_year true theCatalog
    { clockYear := 2025, scrollTop := 0 } { clockYear := 2025, scrollTop := 777 } rfl⟩

/-- Claim C7: across both modes and every environment, project cards
render exactly the catalog projects in declaration order, technology
tags render in declaration order, and skill names render in
declaration order; the rendered entries are images of the unchanged
catalog entries. -/
theorem c7_catalog_order_stable (m : Bool) (env : Env) :
    (renderPage m theCatalog env).projectCards = projectsData.map (renderProject m) ∧
    (renderPage m theCatalog env).projectCards.map RenderedProject.title =
      projectsData.map Project.title ∧
    (renderPage m theCatalog env).techTags = otherTechnologies ∧
    (renderPage m theCatalog env).frontendSkillNames = frontendSkills.map SkillEntry.name ∧
    (renderPage m theCatalog env).backendSkillNames = backendSkills.map SkillEntry.name := by
  refine ⟨rfl, ?_, rfl, rfl, rfl⟩
  cases m <;> rfl

/-- Claim C8: every rendered skill is exactly the skill name; the
0-100 proficiency value field never influences the rendered tree. -/
theorem c8_skill_value_unrendered (m : Bool) (env : Env) (n : String) (v₁ v₂ : Nat) :
    (renderPage m theCatalog env).frontendSkillNames = frontendSkills.map SkillEntry.name ∧
    (renderPage m theCatalog env).backendSkillNames = backendSkills.map SkillEntry.name ∧
    renderSkill { name := n, value := v₁ } = renderSkill { name := n, value := v₂ } :=
  ⟨rfl, rfl, rfl⟩

/-- Claim C9: the contact form collects exactly the three text fields
and defines no submission handler, so submitting changes no
application state. -/
theorem c9_contact_form_noop (st : AppState) :
    theContactForm.fieldIds = ["name", "email", "message"] ∧
    theContactForm.onSubmit = none ∧
    submitForm theContactForm st = st :=
  ⟨rfl, rfl, rfl⟩

/-- Claim C10: on the very first render, before any effect has run,
the mode is dark (`useState(true)`) regardless of the environment
prefers-dark signal; the signal is applied only by the mount effect. -/
theorem c10_first_render_dark (pref : Bool) :
    firstRenderMode pref = true ∧ afterMountMode pref = pref :=
  ⟨rfl, rfl⟩

end Portfolio
